import Mathlib

/-!
Verification of the klados-worker-template service.

The development shallowly embeds the worker's HTTP handlers (health,
arke-verification, process) and the job-processing routine `processJob`
from the TypeScript source.  The external `KladosJob` runtime from
`@arke-institute/rhiza` is not part of this repository; where its
behaviour decides a property it is modelled from the specification and
the corresponding definition says so in its doc comment.
-/

namespace KladosWorker

/-- The Cloudflare worker environment bindings (`Env` in `types.ts`).
`VERIFICATION_TOKEN` and `ARKE_VERIFY_AGENT_ID` are optional
(`string | undefined` in TypeScript); the required fields are plain
strings, which may still be empty at runtime. -/
structure Env where
  AGENT_ID : String
  AGENT_VERSION : String
  ARKE_AGENT_KEY : String
  VERIFICATION_TOKEN : Option String
  ARKE_VERIFY_AGENT_ID : Option String
deriving Repr, DecidableEq

/-- JavaScript truthiness of a string: every string except the empty
string is truthy. -/
def jsTruthy (s : String) : Bool :=
  s ≠ ""

/-- JavaScript truthiness of a possibly-undefined string: `undefined`
and the empty string are falsy. -/
def jsTruthyOpt : Option String → Bool
  | none => false
  | some s => jsTruthy s

/-- JavaScript `a || b` for a possibly-undefined string `a` and a
string `b`: the value of `a` when it is truthy, otherwise `b`. -/
def jsOr (a : Option String) (b : String) : String :=
  match a with
  | none => b
  | some s => if jsTruthy s then s else b

/-- Response body of `GET /health`. -/
structure HealthResponse where
  status : String
  agent_id : String
  version : String
deriving Repr, DecidableEq

/-- The `GET /health` handler: returns `{status: "ok", agent_id, version}`
from the environment bindings. -/
def healthHandler (env : Env) : HealthResponse :=
  { status := "ok"
    agent_id := env.AGENT_ID
    version := env.AGENT_VERSION }

/-- Response of `GET /.well-known/arke-verification`: either the
verification payload with HTTP status 200, or the configuration-error
payload with HTTP status 500. -/
inductive VerificationResponse where
  | ok (verification_token : String) (klados_id : String)
  | configError (status : Nat) (error : String)
deriving Repr, DecidableEq

/-- Whether a verification response is the configuration error. -/
def VerificationResponse.isConfigError : VerificationResponse → Bool
  | .ok _ _ => false
  | .configError _ _ => true

/-- The `klados_id` field of a successful verification response. -/
def VerificationResponse.kladosId : VerificationResponse → Option String
  | .ok _ k => some k
  | .configError _ _ => none

/-- The `GET /.well-known/arke-verification` handler:
`kladosId = ARKE_VERIFY_AGENT_ID || AGENT_ID`; when `!token || !kladosId`
it returns the 500 configuration error, otherwise the verification
payload. -/
def verificationHandler (env : Env) : VerificationResponse :=
  let token := env.VERIFICATION_TOKEN
  let kladosId := jsOr env.ARKE_VERIFY_AGENT_ID env.AGENT_ID
  if ¬ jsTruthyOpt token ∨ ¬ jsTruthy kladosId then
    .configError 500 "Verification not configured"
  else
    .ok (token.getD "") kladosId

/-- Target-entity properties (`TargetProperties` in `types.ts`);
only the fields `processJob` reads are carried. -/
structure TargetProperties where
  title : Option String
  content : Option String
deriving Repr, DecidableEq

/-- An entity fetched from the Arke API: id, type tag and properties. -/
structure Entity where
  id : String
  type : String
  properties : TargetProperties
deriving Repr, DecidableEq

/-- Output-entity properties (`OutputProperties` in `types.ts`) as built
by `processJob`. -/
structure OutputProperties where
  result : String
  source_id : String
  processed_at : String
deriving Repr, DecidableEq

/-- A relationship edge on a created entity. -/
structure Relationship where
  predicate : String
  peer : String
  peer_type : String
deriving Repr, DecidableEq

/-- Body of the `POST /entities` call made by `processJob`. -/
structure CreateEntityBody where
  type : String
  collection : String
  properties : OutputProperties
  relationships : List Relationship
deriving Repr, DecidableEq

/-- The entity data returned by a successful `POST /entities`. -/
structure CreatedEntity where
  id : String
deriving Repr, DecidableEq

/-- Result of the `POST /entities` call: `data` and `error` as returned
by the openapi client (`undefined` is `none`; an error object, being a
JavaScript object, is always truthy). -/
structure CreateResult where
  data : Option CreatedEntity
  error : Option String
deriving Repr, DecidableEq

/-- The job request (`KladosRequest` from the external library): the
fields the worker reads are the target entity id and the job
collection. -/
structure KladosRequest where
  target_entity : String
  job_collection : String
deriving Repr, DecidableEq

/-- External effects performed by `processJob`, recorded in order. -/
inductive Effect where
  | fetchTarget (targetId : String)
  | createEntity (body : CreateEntityBody)
deriving Repr, DecidableEq

/-- Whether an effect is the `POST /entities` creation call. -/
def Effect.isCreate : Effect → Bool
  | .createEntity _ => true
  | _ => false

/-- Whether an effect is the target fetch. -/
def Effect.isFetch : Effect → Bool
  | .fetchTarget _ => true
  | _ => false

/-- Outcome of running the processing routine: a normal return with the
output-entity ids, or a thrown error. -/
inductive Outcome where
  | ok (ids : List String)
  | thrown (msg : String)
deriving Repr, DecidableEq

/-- Whether an outcome is a throw. -/
def Outcome.isThrown : Outcome → Bool
  | .thrown _ => true
  | .ok _ => false

/-- The responses of the external world to the calls `processJob`
makes: the result of `job.fetchTarget` (which either yields the target
entity or throws), the response of `POST /entities` as a function of
the request body, and the current timestamp string. -/
structure JobWorld where
  fetchResult : Except String Entity
  createResult : CreateEntityBody → CreateResult
  now : String

/-- The example processing function `processEntity` from `job.ts`:
returns the string built from the entity id and its title, defaulting
the title to `untitled`. -/
def processEntity (entityId : String) (properties : TargetProperties) : String :=
  "Processed entity " ++ entityId ++ ": " ++ (jsOr properties.title "untitled")

/-- The creation body `processJob` sends to `POST /entities` for a
fetched target: type `processed_output`, the request's job collection,
properties carrying the processing result, `source_id` and timestamp,
and a single `derived_from` relationship back to the target. -/
def outputBody (req : KladosRequest) (target : Entity) (now : String) :
    CreateEntityBody :=
  { type := "processed_output"
    collection := req.job_collection
    properties :=
      { result := processEntity target.id target.properties
        source_id := target.id
        processed_at := now }
    relationships :=
      [{ predicate := "derived_from"
         peer := target.id
         peer_type := target.type }] }

/-- The processing routine `processJob` from `job.ts`: fetch the
target, process it, create one output entity, and return the created
id; a fetch failure propagates as a throw, and a creation response
with an error or without data raises
`Failed to create output entity`.  Returns the outcome together with
the ordered list of external calls made. -/
def processJob (req : KladosRequest) (w : JobWorld) : Outcome × List Effect :=
  match w.fetchResult with
  | .error e => (.thrown e, [.fetchTarget req.target_entity])
  | .ok target =>
    let body := outputBody req target w.now
    let cr := w.createResult body
    let trace := [Effect.fetchTarget req.target_entity, Effect.createEntity body]
    match cr.error, cr.data with
    | some e, _ =>
      (.thrown ("Failed to create output entity: " ++ e), trace)
    | none, none =>
      (.thrown "Failed to create output entity: undefined", trace)
    | none, some output => (.ok [output.id], trace)

/-- The job lifecycle states of the external handle, per the spec:
`accepted → running → \x7bdone | failed\x7d`. -/
inductive JobState where
  | accepted
  | running
  | done
  | failed
deriving Repr, DecidableEq

/-- Modelled from the spec: the record the external `KladosJob` handle
leaves behind for one `run` lifecycle.  `KladosJob` itself belongs to
`@arke-institute/rhiza` and is not part of this repository; the spec
states that the handle writes the log record, translates errors, and
updates the batch slot when the job is part of a scattered batch. -/
structure RunRecord where
  finalState : JobState
  logRecords : Nat
  batchSlotUpdates : Nat
deriving Repr, DecidableEq

/-- Modelled from the spec: `KladosJob.run` executes the processing
routine, marks the job `done` on a normal return and `failed` on a
throw, produces exactly one log record for the lifecycle, and performs
one batch-slot update exactly when the invocation occupies a batch
slot (scattered invocation), independently of the routine's output. -/
def kladosRun (req : KladosRequest) (w : JobWorld) (isBatch : Bool) : RunRecord :=
  { finalState :=
      match (processJob req w).1 with
      | .ok _ => .done
      | .thrown _ => .failed
    logRecords := 1
    batchSlotUpdates := if isBatch then 1 else 0 }

/-- The static agent credentials the `/process` handler binds into the
handle: `AGENT_ID`, `AGENT_VERSION` and `ARKE_AGENT_KEY` from the
environment. -/
structure AgentCreds where
  agentId : String
  agentVersion : String
  authToken : String
deriving Repr, DecidableEq

/-- Modelled from the spec: the handle's acceptance payload
(`job.acceptResponse`), which echoes the accepted request under a
`started` status.  Its exact shape lives in the external library; what
the claims need is that it is a function of the accepted request and
credentials alone. -/
structure AcceptResponse where
  status : String
  request : KladosRequest
  agent_id : String
deriving Repr, DecidableEq

/-- Modelled from the spec: `KladosJob.accept` builds the acceptance
payload synchronously from the request and the static credentials. -/
def acceptResponse (req : KladosRequest) (creds : AgentCreds) : AcceptResponse :=
  { status := "started"
    request := req
    agent_id := creds.agentId }

/-- An HTTP response with a status code and a body. -/
structure HttpResponse (α : Type) where
  status : Nat
  body : α
deriving Repr, DecidableEq

/-- The synchronous result of the `POST /process` handler: the HTTP
response it returns, and the single background task it registered with
`executionCtx.waitUntil` (represented by the lifecycle record that task
produces when the runtime executes it). -/
structure ProcessHandlerResult where
  response : HttpResponse AcceptResponse
  scheduledTasks : List RunRecord
deriving Repr, DecidableEq

/-- The `POST /process` handler: parse the request, accept the job with
the static agent credentials, register `job.run(processJob)` with
`executionCtx.waitUntil`, and return the acceptance payload (Hono's
`c.json` defaults to HTTP 200). -/
def processHandler (req : KladosRequest) (env : Env) (w : JobWorld)
    (isBatch : Bool) : ProcessHandlerResult :=
  let creds : AgentCreds :=
    { agentId := env.AGENT_ID
      agentVersion := env.AGENT_VERSION
      authToken := env.ARKE_AGENT_KEY }
  { response := { status := 200, body := acceptResponse req creds }
    scheduledTasks := [kladosRun req w isBatch] }

/-- Observable events of one `POST /process` invocation, in the order
the runtime produces them. -/
inductive HandlerEvent where
  | acceptJob
  | scheduleTask
  | sendResponse (status : Nat)
  | taskCompleted (final : JobState)
deriving Repr, DecidableEq

/-- Whether an event is the sending of the HTTP response. -/
def HandlerEvent.isSendResponse : HandlerEvent → Bool
  | .sendResponse _ => true
  | _ => false

/-- Whether an event is the completion of a background task. -/
def HandlerEvent.isTaskCompleted : HandlerEvent → Bool
  | .taskCompleted _ => true
  | _ => false

/-- Modelled from the spec: the hosting runtime's execution of one
`POST /process` invocation.  The handler body runs synchronously
(accept, then registration of the background task via
`executionCtx.waitUntil`, in source order), the response is sent, and
afterwards the runtime runs every registered task to completion —
`waitUntil` guarantees completion even though the response has already
been sent. -/
def runtimeExecute (req : KladosRequest) (env : Env) (w : JobWorld)
    (isBatch : Bool) : List HandlerEvent :=
  let h := processHandler req env w isBatch
  [HandlerEvent.acceptJob, HandlerEvent.scheduleTask,
    HandlerEvent.sendResponse h.response.status]
    ++ h.scheduledTasks.map (fun r => HandlerEvent.taskCompleted r.finalState)

lemma jsTruthy_jsOr (a : Option String) (b : String) :
    jsTruthy (jsOr a b) = (jsTruthyOpt a || jsTruthy b) := by
  rcases a with _ | s
  · rfl
  · by_cases h : jsTruthy s
    · simp [jsOr, jsTruthyOpt, h]
    · simp [jsOr, jsTruthyOpt, h]

lemma jsOr_of_truthy (a : Option String) (b : String)
    (h : jsTruthyOpt a = true) : jsOr a b = a.getD "" := by
  rcases a with _ | s
  · simp [jsTruthyOpt] at h
  · simp only [jsTruthyOpt] at h
    simp [jsOr, h]

lemma jsOr_of_falsy (a : Option String) (b : String)
    (h : jsTruthyOpt a = false) : jsOr a b = b := by
  rcases a with _ | s
  · rfl
  · simp only [jsTruthyOpt] at h
    simp [jsOr, h]

/-- C5: for every environment configuration, `GET /health` returns
`\x7bstatus, agent_id, version\x7d` with `status = "ok"`, `agent_id` and
`version` equal to the configured `AGENT_ID` and `AGENT_VERSION`; the
handler is a pure function of the environment, so repeated calls under
the same configuration return the same response and there is no
failure mode. -/
theorem health_returns_configured_identity (env : Env) :
    healthHandler env =
      { status := "ok", agent_id := env.AGENT_ID, version := env.AGENT_VERSION } :=
  rfl

/-- C10: the response of `GET /health` is a function of `AGENT_ID` and
`AGENT_VERSION` only: two environments agreeing on those two fields
but differing arbitrarily in `ARKE_AGENT_KEY`, `VERIFICATION_TOKEN`
or `ARKE_VERIFY_AGENT_ID` yield identical health responses, so no
secret material flows to the health endpoint. -/
theorem health_noninterference (e₁ e₂ : Env)
    (hid : e₁.AGENT_ID = e₂.AGENT_ID)
    (hver : e₁.AGENT_VERSION = e₂.AGENT_VERSION) :
    healthHandler e₁ = healthHandler e₂ := by
  simp [healthHandler, hid, hver]

/-- Witness for C10 at two concrete environments that agree on
`AGENT_ID` and `AGENT_VERSION` and differ in every secret field. -/
theorem health_noninterference_witness :
    healthHandler
        { AGENT_ID := "a1", AGENT_VERSION := "v1", ARKE_AGENT_KEY := "k1",
          VERIFICATION_TOKEN := some "t1", ARKE_VERIFY_AGENT_ID := some "va1" }
      = healthHandler
        { AGENT_ID := "a1", AGENT_VERSION := "v1", ARKE_AGENT_KEY := "k2",
          VERIFICATION_TOKEN := none, ARKE_VERIFY_AGENT_ID := none } :=
  health_noninterference _ _ rfl rfl

lemma verificationHandler_ok (env : Env)
    (h1 : jsTruthyOpt env.VERIFICATION_TOKEN = true)
    (h2 : jsTruthy (jsOr env.ARKE_VERIFY_AGENT_ID env.AGENT_ID) = true) :
    verificationHandler env =
      .ok (env.VERIFICATION_TOKEN.getD "")
        (jsOr env.ARKE_VERIFY_AGENT_ID env.AGENT_ID) := by
  unfold verificationHandler
  simp [h1, h2]

lemma verificationHandler_err (env : Env)
    (h : jsTruthyOpt env.VERIFICATION_TOKEN = false ∨
      jsTruthy (jsOr env.ARKE_VERIFY_AGENT_ID env.AGENT_ID) = false) :
    verificationHandler env = .configError 500 "Verification not configured" := by
  unfold verificationHandler
  rcases h with h | h <;> simp [h]

/-- C4: `GET /.well-known/arke-verification` returns the 500
configuration error exactly when the verification token is absent
(falsy) or both identifier sources are absent (falsy); otherwise it
returns `\x7bverification_token, klados_id\x7d` where `klados_id` is
`ARKE_VERIFY_AGENT_ID` when that is configured and `AGENT_ID`
otherwise. -/
theorem verification_characterization (env : Env) :
    ((verificationHandler env).isConfigError = true ↔
      (jsTruthyOpt env.VERIFICATION_TOKEN = false ∨
        (jsTruthyOpt env.ARKE_VERIFY_AGENT_ID = false ∧
          jsTruthy env.AGENT_ID = false)))
    ∧ (∀ t, env.VERIFICATION_TOKEN = some t → jsTruthy t = true →
        (jsTruthyOpt env.ARKE_VERIFY_AGENT_ID = true →
          verificationHandler env = .ok t (env.ARKE_VERIFY_AGENT_ID.getD ""))
        ∧ (jsTruthyOpt env.ARKE_VERIFY_AGENT_ID = false →
            jsTruthy env.AGENT_ID = true →
            verificationHandler env = .ok t env.AGENT_ID)) := by
  constructor
  · cases h1 : jsTruthyOpt env.VERIFICATION_TOKEN
    · rw [verificationHandler_err env (Or.inl h1)]
      simp [VerificationResponse.isConfigError]
    · cases h2 : jsTruthyOpt env.ARKE_VERIFY_AGENT_ID
      · cases h3 : jsTruthy env.AGENT_ID
        · rw [verificationHandler_err env
            (Or.inr (by rw [jsTruthy_jsOr, h2, h3]; rfl))]
          simp [VerificationResponse.isConfigError, h1, h2, h3]
        · rw [verificationHandler_ok env h1 (by rw [jsTruthy_jsOr, h2, h3]; rfl)]
          simp [VerificationResponse.isConfigError, h1, h2, h3]
      · rw [verificationHandler_ok env h1
          (by rw [jsTruthy_jsOr, h2, Bool.true_or])]
        simp [VerificationResponse.isConfigError, h1, h2]
  · intro t ht htt
    have h1 : jsTruthyOpt env.VERIFICATION_TOKEN = true := by
      rw [ht]; simpa [jsTruthyOpt] using htt
    constructor
    · intro hv
      rw [verificationHandler_ok env h1 (by simp [jsTruthy_jsOr, hv]),
        jsOr_of_truthy _ _ hv, ht]
      simp
    · intro hv ha
      rw [verificationHandler_ok env h1 (by simp [jsTruthy_jsOr, hv, ha]),
        jsOr_of_falsy _ _ hv, ht]
      simp

/-- Witness for C4 at a concrete environment with a truthy token and a
configured verification-specific identifier. -/
theorem verification_characterization_witness :
    verificationHandler
        { AGENT_ID := "a1", AGENT_VERSION := "v1", ARKE_AGENT_KEY := "k",
          VERIFICATION_TOKEN := some "tok", ARKE_VERIFY_AGENT_ID := some "va" }
      = .ok "tok" "va" :=
  ((verification_characterization _).2 "tok" rfl (by decide)).1 (by decide)

/-- C9: the verification endpoint tests configuration by JavaScript
truthiness, so the empty string behaves as absent: an empty
`ARKE_VERIFY_AGENT_ID` falls back to `AGENT_ID`; an empty
`VERIFICATION_TOKEN` yields the 500 configuration error although the
variable is present; and when `AGENT_ID` is empty and
`ARKE_VERIFY_AGENT_ID` is the empty string the endpoint returns the
500 configuration error even with a token present. -/
theorem verification_empty_string_as_absent (env : Env) :
    (env.ARKE_VERIFY_AGENT_ID = some "" →
      (verificationHandler env).isConfigError = false →
      (verificationHandler env).kladosId = some env.AGENT_ID)
    ∧ (env.VERIFICATION_TOKEN = some "" →
        (verificationHandler env).isConfigError = true)
    ∧ (env.AGENT_ID = "" → env.ARKE_VERIFY_AGENT_ID = some "" →
        (verificationHandler env).isConfigError = true) := by
  refine ⟨?_, ?_, ?_⟩
  · intro hv hne
    have hfal : jsTruthyOpt env.ARKE_VERIFY_AGENT_ID = false := by
      simp [hv, jsTruthyOpt, jsTruthy]
    cases h1 : jsTruthyOpt env.VERIFICATION_TOKEN
    · rw [verificationHandler_err env (Or.inl h1)] at hne
      simp [VerificationResponse.isConfigError] at hne
    · cases h3 : jsTruthy env.AGENT_ID
      · rw [verificationHandler_err env
          (Or.inr (by simp [jsTruthy_jsOr, hfal, h3]))] at hne
        simp [VerificationResponse.isConfigError] at hne
      · rw [verificationHandler_ok env h1 (by simp [jsTruthy_jsOr, hfal, h3]),
          jsOr_of_falsy _ _ hfal]
        simp [VerificationResponse.kladosId]
  · intro ht
    rw [verificationHandler_err env
      (Or.inl (by simp [ht, jsTruthyOpt, jsTruthy]))]
    simp [VerificationResponse.isConfigError]
  · intro ha hv
    have hfal : jsTruthyOpt env.ARKE_VERIFY_AGENT_ID = false := by
      simp [hv, jsTruthyOpt, jsTruthy]
    rw [verificationHandler_err env
      (Or.inr (by rw [jsTruthy_jsOr, hfal]; simp [ha, jsTruthy]))]
    simp [VerificationResponse.isConfigError]

/-- Witness for C9 at a concrete environment whose verification
token is the empty string. -/
theorem verification_empty_string_as_absent_witness :
    (verificationHandler
        { AGENT_ID := "a1", AGENT_VERSION := "v1", ARKE_AGENT_KEY := "k",
          VERIFICATION_TOKEN := some "", ARKE_VERIFY_AGENT_ID := none
        }).isConfigError = true :=
  (verification_empty_string_as_absent _).2.1 rfl

/-- C1: whenever the target fetch succeeds and the `POST /entities`
call answers with output data and no error, `processJob` performs
exactly one fetch and exactly one creation, the created body lives in
the request's job collection, carries `source_id` equal to the target
id, and has exactly one `derived_from` relationship to the target's id
and type, and the routine returns the singleton list of the created
output's id. -/
theorem processJob_success_shape (req : KladosRequest) (w : JobWorld)
    (target : Entity) (output : CreatedEntity)
    (hfetch : w.fetchResult = .ok target)
    (hcreate : w.createResult (outputBody req target w.now) =
      { data := some output, error := none }) :
    (processJob req w).1 = .ok [output.id]
    ∧ (processJob req w).2.countP (fun e => e.isFetch) = 1
    ∧ (processJob req w).2.countP (fun e => e.isCreate) = 1
    ∧ (processJob req w).2 =
        [Effect.fetchTarget req.target_entity,
          Effect.createEntity (outputBody req target w.now)]
    ∧ (outputBody req target w.now).collection = req.job_collection
    ∧ (outputBody req target w.now).properties.source_id = target.id
    ∧ (outputBody req target w.now).relationships =
        [{ predicate := "derived_from", peer := target.id,
           peer_type := target.type }] := by
  unfold processJob
  rw [hfetch]
  simp only [hcreate]
  simp [outputBody, List.countP, List.countP.go, Effect.isFetch,
    Effect.isCreate]

/-- Witness for C1 at a concrete request, world, target and output. -/
theorem processJob_success_shape_witness :
    (processJob { target_entity := "e1", job_collection := "c1" }
        { fetchResult := .ok
            { id := "e1", type := "test_entity",
              properties := { title := some "T", content := none } }
          createResult := fun _ => { data := some { id := "o1" }, error := none }
          now := "2026-01-01T00:00:00Z" }).1 = .ok ["o1"] :=
  (processJob_success_shape
    { target_entity := "e1", job_collection := "c1" }
    { fetchResult := .ok
        { id := "e1", type := "test_entity",
          properties := { title := some "T", content := none } }
      createResult := fun _ => { data := some { id := "o1" }, error := none }
      now := "2026-01-01T00:00:00Z" }
    { id := "e1", type := "test_entity",
      properties := { title := some "T", content := none } }
    { id := "o1" } rfl rfl).1

/-- C6: after a successful fetch, `processJob` throws exactly when the
`POST /entities` creation call returns an error or no output data;
when it throws it returns no output ids, and otherwise it returns
normally with the created id. -/
theorem processJob_throw_iff_creation_fails (req : KladosRequest)
    (w : JobWorld) (target : Entity)
    (hfetch : w.fetchResult = .ok target) :
    ((processJob req w).1.isThrown = true ↔
      ((w.createResult (outputBody req target w.now)).error.isSome = true ∨
        (w.createResult (outputBody req target w.now)).data.isNone = true))
    ∧ ((processJob req w).1.isThrown = true →
        ∀ ids, (processJob req w).1 ≠ .ok ids)
    ∧ ((processJob req w).1.isThrown = false →
        ∃ cid, (processJob req w).1 = .ok [cid]) := by
  unfold processJob
  rw [hfetch]
  simp only
  rcases he : (w.createResult (outputBody req target w.now)).error with _ | e
  · rcases hd : (w.createResult (outputBody req target w.now)).data with _ | d
    · simp [he, hd, Outcome.isThrown]
    · simp [he, hd, Outcome.isThrown]
  · simp [he, Outcome.isThrown]

/-- Witness for C6 at a concrete world whose creation call fails with
an error. -/
theorem processJob_throw_iff_creation_fails_witness :
    ((processJob { target_entity := "e1", job_collection := "c1" }
        { fetchResult := .ok
            { id := "e1", type := "test_entity",
              properties := { title := none, content := none } }
          createResult := fun _ => { data := none, error := some "boom" }
          now := "t0" }).1.isThrown = true ↔
      (((({ data := none, error := some "boom" } : CreateResult)).error.isSome
          = true) ∨
        ((({ data := none, error := some "boom" } : CreateResult)).data.isNone
          = true))) :=
  (processJob_throw_iff_creation_fails
    { target_entity := "e1", job_collection := "c1" }
    { fetchResult := .ok
        { id := "e1", type := "test_entity",
          properties := { title := none, content := none } }
      createResult := fun _ => { data := none, error := some "boom" }
      now := "t0" }
    { id := "e1", type := "test_entity",
      properties := { title := none, content := none } } rfl).1

/-- C7: when the routine throws before the output-creation step (the
target fetch throws), the `POST /entities` call is never made — the
effect trace contains no creation effect — the throw propagates, and
the job's terminal state under the handle's run semantics is
`failed`. -/
theorem processJob_early_throw_no_output (req : KladosRequest)
    (w : JobWorld) (msg : String) (isBatch : Bool)
    (hfetch : w.fetchResult = .error msg) :
    (∀ e ∈ (processJob req w).2, e.isCreate = false)
    ∧ (processJob req w).1 = .thrown msg
    ∧ (kladosRun req w isBatch).finalState = .failed := by
  unfold kladosRun processJob
  rw [hfetch]
  simp [Effect.isCreate]

/-- Witness for C7 at a concrete world whose fetch throws a validation
error. -/
theorem processJob_early_throw_no_output_witness :
    (processJob { target_entity := "e1", job_collection := "c1" }
        { fetchResult := .error "INVALID_INPUT: target must have content"
          createResult := fun _ => { data := some { id := "o1" }, error := none }
          now := "t0" }).1 = .thrown "INVALID_INPUT: target must have content" :=
  (processJob_early_throw_no_output
    { target_entity := "e1", job_collection := "c1" }
    { fetchResult := .error "INVALID_INPUT: target must have content"
      createResult := fun _ => { data := some { id := "o1" }, error := none }
      now := "t0" }
    "INVALID_INPUT: target must have content" false rfl).2.1

/-- C8: every `KladosJob` lifecycle produces exactly one log record and
at most one batch-slot update, whatever the routine's outcome and
however many output entities it created. -/
theorem kladosRun_log_and_batch_invariant (req : KladosRequest)
    (w : JobWorld) (isBatch : Bool) :
    (kladosRun req w isBatch).logRecords = 1
    ∧ (kladosRun req w isBatch).batchSlotUpdates ≤ 1 := by
  unfold kladosRun
  refine ⟨rfl, ?_⟩
  cases isBatch <;> simp

/-- C2: for every request, `POST /process` returns HTTP 200 carrying
the handle's acceptance payload, and the response is identical across
any two worlds and batch flags — the detached routine's outcome is
never reflected in the HTTP response. -/
theorem process_returns_accept_always (req : KladosRequest) (env : Env)
    (w w' : JobWorld) (b b' : Bool) :
    (processHandler req env w b).response.status = 200
    ∧ (processHandler req env w b).response.body =
        acceptResponse req
          { agentId := env.AGENT_ID, agentVersion := env.AGENT_VERSION,
            authToken := env.ARKE_AGENT_KEY }
    ∧ (processHandler req env w b).response =
        (processHandler req env w' b').response :=
  ⟨rfl, rfl, rfl⟩

/-- C3: in the runtime's event order for one `POST /process`
invocation, the HTTP response is sent strictly before any background
task completes, and every task registered through
`executionCtx.waitUntil` has a completion event (completion
guarantee). -/
theorem process_ack_precedes_completion (req : KladosRequest) (env : Env)
    (w : JobWorld) (b : Bool) :
    (∃ i, (runtimeExecute req env w b).get? i =
        some (HandlerEvent.sendResponse 200)
      ∧ ∀ j s, (runtimeExecute req env w b).get? j =
          some (HandlerEvent.taskCompleted s) → i < j)
    ∧ (runtimeExecute req env w b).countP (fun e => e.isTaskCompleted) =
        (processHandler req env w b).scheduledTasks.length := by
  constructor
  · refine ⟨2, rfl, ?_⟩
    intro j s hj
    match j with
    | 0 => exact absurd hj (by simp [runtimeExecute])
    | 1 => exact absurd hj (by simp [runtimeExecute])
    | 2 => exact absurd hj (by simp [runtimeExecute])
    | (n + 3) => omega
  · rfl

end KladosWorker
